import Mathlib

/-! # Verification of the payments_dashboard_mini bulk population pipeline

Shallow embedding of `src/payments/scripts/populate_db_sqlalchemy_w_copy.py`
(and, where a claim cites them, the sister scripts
`populate_database_sqlalchemy.py` and `populate_database.py`), with theorems
settling the specification's claims about batch partitioning, the record
generators, the weighted sampler, the COPY serializer and the
empty-reference error paths.

Modelling conventions:
* machine integers are `ℕ`/`ℤ`, Python floats are `ℚ`;
* `datetime` values live on an abstract integer timeline measured in seconds,
  so `timedelta(days=d)` adds `d * 86400`;
* every random draw (`random.choice`, `random.randint`, `np.random.choice`,
  the 95/5 Bernoulli mask) is an explicit oracle argument, making each
  generator the pure function the script computes once its draws are fixed;
* `raise ValueError(msg)` is `Except.error (PyError.valueError msg)`, and the
  specification's error taxonomy names (`MissingReferenceDataError`,
  `ConfigurationError`) are predicates classifying those raised values.
-/

namespace PaymentsDashboard

/-- The list Python's `range(start, stop, step)` yields for a positive step
(`range` with `step = 0` raises, so the guard also demands `0 < step`);
this is the offset sequence `batch_starts = list(range(0, n, batch_size))`
both scripts build. -/
def pyRange (start stop step : ℕ) : List ℕ :=
  if _h : start < stop ∧ 0 < step then
    start :: pyRange (start + step) stop step
  else
    []
termination_by stop - start
decreasing_by omega

/-- `batch_starts = list(range(0, n, batch_size))` from
`create_customers_bulk` / `create_purchases_bulk` / `create_payments_bulk`. -/
def batchStarts (n batch_size : ℕ) : List ℕ := pyRange 0 n batch_size

/-- The per-batch row count every `process_*_batch` worker computes:
`batch_end = min(batch_start + batch_size, n); actual = batch_end - batch_start`. -/
def actualBatchSize (batch_start batch_size n : ℕ) : ℕ :=
  min (batch_start + batch_size) n - batch_start

/-- The batch descriptors (start offset, row count) a stage dispatches. -/
def batches (n batch_size : ℕ) : List (ℕ × ℕ) :=
  (batchStarts n batch_size).map
    (fun batch_start => (batch_start, actualBatchSize batch_start batch_size n))

/-- The chunking loop `for i in range(0, len(rows), batch_size):
insert_batch_copy(rows[i : i + batch_size], ...)`: the list of chunks the
stage hands to the bulk loader, in submission order. -/
def loadChunks {α : Type} (rows : List α) (batch_size : ℕ) : List (List α) :=
  (pyRange 0 rows.length batch_size).map
    (fun i => (rows.drop i).take batch_size)

/-- A raised Python exception; the scripts only ever raise
`ValueError(msg)` on their checked error paths. -/
inductive PyError : Type
  | valueError (msg : String)
deriving DecidableEq, Repr

/-- Message of `create_purchases_bulk`'s empty-reference `ValueError`. -/
def purchaseMissingRefsMsg : String :=
  "No customers or services available for purchase creation"

/-- Message of `create_payments_bulk`'s empty-reference `ValueError`. -/
def paymentMissingRefsMsg : String :=
  "No customers or purchases available for payment creation"

/-- The specification's `MissingReferenceDataError` class: the two
`ValueError`s a dependent stage raises when its prerequisite table gave it
zero reference rows. -/
def isMissingReferenceDataError : PyError → Bool
  | .valueError m => m = purchaseMissingRefsMsg || m = paymentMissingRefsMsg

/-- The specification's `ConfigurationError` class: the `ValueError`s
`np.random.choice` raises when the value list and the weight vector disagree
in size, or the normalized weights are NaN because every weight was zero. -/
def isConfigurationError : PyError → Bool
  | .valueError m => m = "a and p must have same size" || m = "probabilities contain NaN"

/-- One row of `customers_data` as `process_customer_batch` builds it. -/
structure CustomerRow : Type where
  name : String
  email : String
  account_status : ℕ
deriving DecidableEq, Repr

/-- The row `process_customer_batch` appends for the global sequence index
`i`: `{"name": f"customer_{i}", "email": f"customer_{i}@example.com",
"account_status": random.choice(account_status_values)}`, the status draw
supplied by the oracle `statusDraw`. -/
def customerRow (statusDraw : ℕ → ℕ) (i : ℕ) : CustomerRow :=
  { name := "customer_" ++ Nat.repr i
    email := "customer_" ++ Nat.repr i ++ "@example.com"
    account_status := statusDraw i }

/-- `process_customer_batch((batch_start, batch_size, n_customers, ...))`:
rows for `i in range(batch_start, min(batch_start + batch_size, n_customers))`. -/
def process_customer_batch (batch_start batch_size n_customers : ℕ)
    (statusDraw : ℕ → ℕ) : List CustomerRow :=
  (pyRange batch_start (min (batch_start + batch_size) n_customers) 1).map
    (customerRow statusDraw)

/-- `create_customers_bulk`: partition `[0, n_customers)` into batches of
`batch_size`, concatenate the workers' outputs in partition order, then chunk
the result for the COPY loader.  Returns (generated rows, submitted chunks);
the function body has no raise path. -/
def create_customers_bulk (n_customers batch_size : ℕ) (statusDraw : ℕ → ℕ) :
    List CustomerRow × List (List CustomerRow) :=
  let customers_data := (batchStarts n_customers batch_size).flatMap
    (fun batch_start =>
      process_customer_batch batch_start batch_size n_customers statusDraw)
  (customers_data, loadChunks customers_data batch_size)

/-- Python's substring test `needle in hay` on character lists. -/
def hasSub (hay needle : List Char) : Bool :=
  match hay with
  | [] => needle.isPrefixOf []
  | c :: t => needle.isPrefixOf (c :: t) || hasSub t needle

/-- Python's `sub in s` for strings. -/
def strIn (sub s : String) : Bool := hasSub s.data sub.data

/-- The telecom service catalog `TELECOM_SERVICES` (20 fixed names). -/
def TELECOM_SERVICES : List String :=
  [ "Fiber Optic 100Mbps", "Fiber Optic 500Mbps", "Fiber Optic 1Gbps",
    "Cable Internet 50Mbps", "Cable Internet 200Mbps", "DSL Internet 25Mbps",
    "DSL Internet 50Mbps", "Wireless Internet 100Mbps",
    "Mobile Plan 5GB", "Mobile Plan 10GB", "Mobile Plan 20GB",
    "Mobile Plan Unlimited", "Mobile Plan Family 4GB", "Mobile Plan Family 10GB",
    "Mobile Plan Business 50GB",
    "Basic TV Package", "Premium TV Package", "Sports TV Package",
    "Movie TV Package", "Family TV Package" ]

/-- The internet-service test of `create_custom_services_bulk`:
`"Internet" in name or "Fiber" in name or "Cable" in name or "DSL" in name
or "Wireless" in name`. -/
def isInternetName (nm : String) : Bool :=
  strIn "Internet" nm || strIn "Fiber" nm || strIn "Cable" nm ||
    strIn "DSL" nm || strIn "Wireless" nm

/-- The internet price buckets: `random.uniform` bounds keyed on the speed
keyword in the service name. -/
def internetPriceRange (nm : String) : ℤ × ℤ :=
  if strIn "1Gbps" nm then (80, 120)
  else if strIn "500Mbps" nm then (50, 80)
  else if strIn "200Mbps" nm then (40, 60)
  else if strIn "100Mbps" nm then (25, 45)
  else if strIn "50Mbps" nm then (20, 35)
  else (15, 25)

/-- The mobile price buckets keyed on the data-volume keyword. -/
def mobilePriceRange (nm : String) : ℤ × ℤ :=
  if strIn "Unlimited" nm then (40, 60)
  else if strIn "50GB" nm then (35, 50)
  else if strIn "20GB" nm then (25, 35)
  else if strIn "10GB" nm then (20, 30)
  else if strIn "5GB" nm then (15, 25)
  else (30, 45)

/-- The TV price buckets keyed on package keywords. -/
def tvPriceRange (nm : String) : ℤ × ℤ :=
  if strIn "Premium" nm then (30, 50)
  else if strIn "Sports" nm || strIn "Movie" nm then (20, 35)
  else (15, 25)

/-- The `random.uniform(lo, hi)` bounds `create_custom_services_bulk` draws
the base price from, following its name-keyword branch structure. -/
def servicePriceRange (nm : String) : ℤ × ℤ :=
  if isInternetName nm then internetPriceRange nm
  else if strIn "Mobile" nm then mobilePriceRange nm
  else tvPriceRange nm

/-- The `ServiceType` enum integer (`INTERNET = 1`, `MOBILE = 2`, `TV = 4`)
the same branch structure assigns. -/
def serviceTypeValue (nm : String) : ℕ :=
  if isInternetName nm then 1
  else if strIn "Mobile" nm then 2
  else 4

/-- Python's `round(x, 2)` modelled on ℚ: round to the nearest hundredth. -/
def round2 (q : ℚ) : ℚ := (round (q * 100) : ℚ) / 100

/-- One row of `services_data`. -/
structure ServiceRow : Type where
  name : String
  type : ℕ
  base_price : ℚ
  is_recurring : Bool
  billing_cycle : ℕ
deriving DecidableEq, Repr

/-- The service row for catalog entry `nm` whose `random.uniform` draw was
`u`: every branch of the source sets `is_recurring = True` and
`billing_cycle = BillingCycle.MONTHLY.value` (`= 1`), and rounds the drawn
price to 2 decimals. -/
def serviceRow (nm : String) (u : ℚ) : ServiceRow :=
  { name := nm
    type := serviceTypeValue nm
    base_price := round2 u
    is_recurring := true
    billing_cycle := 1 }

/-- `create_custom_services_bulk`'s generation loop: one row per catalog
entry, `us` listing the per-entry uniform draws. -/
def create_custom_services_bulk (us : List ℚ) : List ServiceRow :=
  List.zipWith serviceRow TELECOM_SERVICES us

/-- One row of `purchase_data`. -/
structure PurchaseRow : Type where
  customer_id : ℕ
  service_id : ℕ
  start_date : ℤ
  end_date : Option ℤ
  status : ℕ
deriving DecidableEq, Repr

/-- The random draws one purchase worker consumes, indexed by the row's
position `k` inside the batch: `customerIdx k`/`serviceIdx k` are the
`np.random.choice` index draws, `dayOffset k` the `random.randint(1, 365)`
draw, `statusVal k` the uniform `PurchaseStatus` value draw, and `now` the
worker's `datetime.now()`. -/
structure PurchaseOracle : Type where
  customerIdx : ℕ → ℕ
  serviceIdx : ℕ → ℕ
  dayOffset : ℕ → ℕ
  statusVal : ℕ → ℕ
  now : ℤ

/-- `process_purchase_batch`: `start_dates[k] = now - timedelta(days=...)`,
`end_dates[k] = start_dates[k] + timedelta(days=30)` when the selected
service's `is_recurring` flag holds, else `None`. -/
def process_purchase_batch (batch_start batch_size n_purchases : ℕ)
    (customer_ids service_ids : List ℕ) (service_is_recurring : List Bool)
    (o : PurchaseOracle) : List PurchaseRow :=
  (List.range (actualBatchSize batch_start batch_size n_purchases)).map (fun k =>
    { customer_id := customer_ids.getD (o.customerIdx k) 0
      service_id := service_ids.getD (o.serviceIdx k) 0
      start_date := o.now - (o.dayOffset k : ℤ) * 86400
      end_date :=
        if service_is_recurring.getD (o.serviceIdx k) false then
          some (o.now - (o.dayOffset k : ℤ) * 86400 + 30 * 86400)
        else none
      status := o.statusVal k })

/-- `create_purchases_bulk` after its reference fetch: raises
`ValueError(purchaseMissingRefsMsg)` when either fetched id list is empty
(`if not customer_ids or not service_ids`) before any batch is dispatched;
otherwise concatenates the workers' rows and chunks them for the loader.
`o` supplies each batch's oracle, keyed by the batch's start offset. -/
def create_purchases_bulk (n_purchases batch_size : ℕ)
    (customer_ids service_ids : List ℕ) (service_is_recurring : List Bool)
    (o : ℕ → PurchaseOracle) :
    Except PyError (List PurchaseRow × List (List PurchaseRow)) :=
  if customer_ids = [] ∨ service_ids = [] then
    .error (.valueError purchaseMissingRefsMsg)
  else
    let purchase_data := (batchStarts n_purchases batch_size).flatMap
      (fun batch_start =>
        process_purchase_batch batch_start batch_size n_purchases
          customer_ids service_ids service_is_recurring (o batch_start))
    .ok (purchase_data, loadChunks purchase_data batch_size)

/-- One row of `payment_data`. -/
structure PaymentRow : Type where
  customer_id : ℕ
  purchase_id : ℕ
  amount : ℚ
  currency : ℕ
  payment_method : ℕ
  status : ℕ
  timestamp : ℤ
deriving DecidableEq, Repr

/-- The random draws one payment worker consumes, indexed by the row's
position `k` inside the batch: `purchaseIdx k` is the with-replacement
`np.random.choice` purchase index, `sameCustomer k` the
`np.random.random() < 0.95` mask entry, `otherIdx k` the index
`random.choice(customer_ids)` lands on in the 5% branch, the rest the
uniform enum/value draws and the worker's `datetime.now()`. -/
structure PaymentOracle : Type where
  purchaseIdx : ℕ → ℕ
  sameCustomer : ℕ → Bool
  otherIdx : ℕ → ℕ
  dayOffset : ℕ → ℕ
  currencyVal : ℕ → ℕ
  methodVal : ℕ → ℕ
  statusVal : ℕ → ℕ
  now : ℤ

/-- `process_payment_batch` from `populate_db_sqlalchemy_w_copy.py`: note the
5% branch appends `random.choice(customer_ids)` — a uniform draw over the
WHOLE customer id list, with no exclusion of the purchase's own customer. -/
def process_payment_batch (batch_start batch_size n_payments : ℕ)
    (purchase_ids purchase_customer_ids : List ℕ) (service_base_prices : List ℚ)
    (customer_ids : List ℕ) (o : PaymentOracle) : List PaymentRow :=
  (List.range (actualBatchSize batch_start batch_size n_payments)).map (fun k =>
    { customer_id :=
        if o.sameCustomer k then purchase_customer_ids.getD (o.purchaseIdx k) 0
        else customer_ids.getD (o.otherIdx k) 0
      purchase_id := purchase_ids.getD (o.purchaseIdx k) 0
      amount := service_base_prices.getD (o.purchaseIdx k) 0
      currency := o.currencyVal k
      payment_method := o.methodVal k
      status := o.statusVal k
      timestamp := o.now - (o.dayOffset k : ℤ) * 86400 })

/-- `create_payments_bulk` after its reference fetch: raises
`ValueError(paymentMissingRefsMsg)` when the fetched customer id list or the
purchase join projection is empty (`if not customer_ids or not purchase_ids`)
before any batch is dispatched; otherwise concatenates the workers' rows and
chunks them for the loader. -/
def create_payments_bulk (n_payments batch_size : ℕ)
    (purchase_ids purchase_customer_ids : List ℕ) (service_base_prices : List ℚ)
    (customer_ids : List ℕ) (o : ℕ → PaymentOracle) :
    Except PyError (List PaymentRow × List (List PaymentRow)) :=
  if customer_ids = [] ∨ purchase_ids = [] then
    .error (.valueError paymentMissingRefsMsg)
  else
    let payment_data := (batchStarts n_payments batch_size).flatMap
      (fun batch_start =>
        process_payment_batch batch_start batch_size n_payments
          purchase_ids purchase_customer_ids service_base_prices
          customer_ids (o batch_start))
    .ok (payment_data, loadChunks payment_data batch_size)

/-- `weights / weights.sum()`: the one-time module-level numpy normalization
of `SERVICE_POPULARITY_WEIGHTS`. -/
def normalizeWeights (ws : List ℚ) : List ℚ := ws.map (fun w => w / ws.sum)

/-- The raw `SERVICE_POPULARITY_WEIGHTS` vector before normalization. -/
def SERVICE_POPULARITY_WEIGHTS : List ℚ :=
  [ 15/100, 12/100, 8/100, 10/100, 9/100, 6/100, 5/100, 4/100,
    12/100, 10/100, 8/100, 6/100, 8/100, 6/100, 3/100,
    8/100, 6/100, 5/100, 4/100, 6/100 ]

/-- The weighted sampler the scripts assemble from the module-level
normalization plus `np.random.choice(len(values), p=w)`'s validation:
a zero weight sum makes the normalized vector NaN (numpy's `0/0`), which
`choice` rejects, and a size mismatch between values and `p` is rejected;
otherwise the categorical distribution is the normalized weight vector,
fixed once at setup. -/
def weightedSamplerSetup (values : List ℕ) (weights : List ℚ) :
    Except PyError (List ℚ) :=
  if weights.sum = 0 then .error (.valueError "probabilities contain NaN")
  else if values.length ≠ weights.length then
    .error (.valueError "a and p must have same size")
  else .ok (normalizeWeights weights)

/-- A `datetime` value as the COPY serializer sees it (microsecond 0,
which is what `isoformat()` prints as `YYYY-MM-DDTHH:MM:SS`). -/
structure PyDate : Type where
  year : ℕ
  month : ℕ
  day : ℕ
  hour : ℕ
  minute : ℕ
  second : ℕ
deriving DecidableEq, Repr

/-- Zero-pad to two digits. -/
def pad2 (n : ℕ) : String :=
  if n < 10 then "0" ++ Nat.repr n else Nat.repr n

/-- Zero-pad to four digits. -/
def pad4 (n : ℕ) : String :=
  if n < 10 then "000" ++ Nat.repr n
  else if n < 100 then "00" ++ Nat.repr n
  else if n < 1000 then "0" ++ Nat.repr n
  else Nat.repr n

/-- `datetime.isoformat()` for a microsecond-0 value. -/
def PyDate.isoformat (d : PyDate) : String :=
  pad4 d.year ++ "-" ++ pad2 d.month ++ "-" ++ pad2 d.day ++ "T" ++
    pad2 d.hour ++ ":" ++ pad2 d.minute ++ ":" ++ pad2 d.second

/-- A cell value of a row dictionary as `insert_batch_copy` dispatches on it:
`None`, a `datetime`, or any other value carried with its `str(value)`
rendering. -/
inductive PgValue : Type
  | null
  | dt (d : PyDate)
  | plain (s : String)
deriving DecidableEq, Repr

/-- A row dictionary: keys in insertion order, as Python dicts preserve. -/
abbrev PgRow : Type := List (String × PgValue)

/-- The per-value conversion in `insert_batch_copy`: `None` becomes the
PostgreSQL null sentinel `\N`, a `datetime` its `isoformat()`, anything else
its `str(value)`. -/
def renderValue : PgValue → String
  | .null => "\\N"
  | .dt d => d.isoformat
  | .plain s => s

/-- One serialized line: `"\t".join(values) + "\n"`. -/
def rowLine (row : PgRow) : String :=
  String.intercalate "\t" (row.map (fun kv => renderValue kv.2)) ++ "\n"

/-- The `io.StringIO` buffer after the write loop: one `output.write` of
`rowLine row` per row, in batch order. -/
def copyBuffer (batch : List PgRow) : String :=
  batch.foldl (fun acc row => acc ++ rowLine row) ""

/-- `insert_batch_copy(batch, ...)`: `None` on the `if not batch: return`
early exit (no COPY is issued); otherwise the buffer streamed through
`cursor.copy_from` together with the positional column list
`list(batch[0].keys())`. -/
def insert_batch_copy (batch : List PgRow) : Option (String × List String) :=
  match batch with
  | [] => none
  | first :: _ => some (copyBuffer batch, first.map Prod.fst)

/-- Decimal value of a digit character. -/
def charVal (c : Char) : ℕ := c.toNat - ('0').toNat

/-- Decimal value of a digit string (most significant first). -/
def decValue (l : List Char) : ℕ :=
  l.foldl (fun acc c => 10 * acc + charVal c) 0

/-- Concrete purchase oracle for witnesses. -/
def purchaseOracleW : PurchaseOracle :=
  { customerIdx := fun _ => 0
    serviceIdx := fun k => k % 2
    dayOffset := fun _ => 5
    statusVal := fun _ => 1
    now := 1000000 }

/-- Concrete payment oracle for witnesses. -/
def paymentOracleW : PaymentOracle :=
  { purchaseIdx := fun k => k % 2
    sameCustomer := fun k => k = 0
    otherIdx := fun _ => 1
    dayOffset := fun _ => 3
    currencyVal := fun _ => 1
    methodVal := fun _ => 2
    statusVal := fun _ => 2
    now := 500000 }

/-- The payment oracle exhibiting the 5% branch landing on the purchase's own
customer: the mask draw fails (different-customer branch) and
`random.choice(customer_ids)` lands on index 0. -/
def paymentOracleBug : PaymentOracle :=
  { purchaseIdx := fun _ => 0
    sameCustomer := fun _ => false
    otherIdx := fun _ => 0
    dayOffset := fun _ => 1
    currencyVal := fun _ => 1
    methodVal := fun _ => 1
    statusVal := fun _ => 1
    now := 0 }

/-- Per-entry uniform draws for the service witness: each entry draws the low
endpoint of its own price bucket. -/
def servicesDrawsW : List ℚ :=
  [ 25, 50, 80, 20, 40, 15, 20, 25, 15, 20, 25, 40, 30, 30, 35, 15, 30, 20, 20, 15 ]

/-- Default purchase row (only used as the `getD` fallback, never reachable
under the stated index bounds). -/
def dfltPurchase : PurchaseRow :=
  { customer_id := 0, service_id := 0, start_date := 0, end_date := none,
    status := 0 }

/-- Default payment row (only used as the `getD` fallback, never reachable
under the stated index bounds). -/
def dfltPayment : PaymentRow :=
  { customer_id := 0, purchase_id := 0, amount := 0, currency := 0,
    payment_method := 0, status := 0, timestamp := 0 }

/-- A concrete two-row batch (with a null, datetime and plain cell) for the
serializer witness. -/
def sampleBatch : List PgRow :=
  [ [("id", PgValue.plain "1"),
     ("start_date", PgValue.dt ⟨2024, 3, 7, 9, 30, 5⟩),
     ("end_date", PgValue.null)],
    [("id", PgValue.plain "2"),
     ("start_date", PgValue.dt ⟨2024, 12, 31, 23, 59, 59⟩),
     ("end_date", PgValue.null)] ]

/-! ## Theorems: batch partitioner (C1) -/

theorem pyRange_nil {start stop step : ℕ} (h : ¬(start < stop ∧ 0 < step)) :
    pyRange start stop step = [] := by
  rw [pyRange.eq_def]
  exact dif_neg h

theorem pyRange_cons {start stop step : ℕ} (h : start < stop) (hs : 0 < step) :
    pyRange start stop step = start :: pyRange (start + step) stop step := by
  rw [pyRange.eq_def]
  exact dif_pos ⟨h, hs⟩

/-- With step 1, Python's range is the contiguous block `[start, stop)`. -/
theorem pyRange_one (stop start : ℕ) :
    pyRange start stop 1 = List.range' start (stop - start) := by
  by_cases h : start < stop
  · rw [pyRange_cons h one_pos, pyRange_one stop (start + 1),
      show stop - start = (stop - (start + 1)) + 1 by omega, List.range'_succ]
  · rw [pyRange_nil (by omega), show stop - start = 0 by omega, List.range']
termination_by stop - start
decreasing_by omega

/-- The per-batch row counts of the partition of `[s, n)` sum to `n - s`. -/
theorem pyRange_sum (n B s : ℕ) (hB : 0 < B) :
    ((pyRange s n B).map (fun st => min (st + B) n - st)).sum = n - s := by
  by_cases h : s < n
  · rw [pyRange_cons h hB]
    simp only [List.map_cons, List.sum_cons, pyRange_sum n B (s + B) hB]
    omega
  · rw [pyRange_nil (by omega)]
    simp only [List.map_nil, List.sum_nil]
    omega
termination_by n - s
decreasing_by omega

/-- The batches' offset ranges concatenate to exactly `[s, n)`: contiguous
coverage with no gap and no overlap. -/
theorem pyRange_cover (n B s : ℕ) (hB : 0 < B) :
    ((pyRange s n B).flatMap (fun st => List.range' st (min (st + B) n - st))) =
      List.range' s (n - s) := by
  by_cases h : s < n
  · rw [pyRange_cons h hB, List.flatMap_cons, pyRange_cover n B (s + B) hB]
    by_cases h2 : s + B ≤ n
    · rw [show min (s + B) n - s = B by omega]
      have happ := List.range'_append s B (n - (s + B)) 1
      rw [one_mul] at happ
      rw [happ, show n - (s + B) + B = n - s by omega]
    · rw [show min (s + B) n - s = n - s by omega,
        show n - (s + B) = 0 by omega, List.range', List.append_nil]
  · rw [pyRange_nil (by omega), List.flatMap_nil,
      show n - s = 0 by omega, List.range']
termination_by n - s
decreasing_by all_goals omega

/-- The partition of `[s, n)` into batches of `B` has `⌈(n - s)/B⌉` parts. -/
theorem pyRange_length (n B s : ℕ) (hB : 0 < B) :
    (pyRange s n B).length = (n - s + B - 1) / B := by
  by_cases h : s < n
  · rw [pyRange_cons h hB, List.length_cons, pyRange_length n B (s + B) hB,
      show n - s + B - 1 = (n - s - 1) + B by omega, Nat.add_div_right _ hB]
    congr 1
    by_cases h2 : B < n - s
    · congr 1
      omega
    · rw [show n - (s + B) + B - 1 = B - 1 by omega,
        Nat.div_eq_of_lt (by omega), Nat.div_eq_of_lt (by omega)]
  · rw [pyRange_nil (by omega), List.length_nil,
      show n - s + B - 1 = B - 1 by omega, Nat.div_eq_of_lt (by omega)]
termination_by n - s
decreasing_by omega

theorem flatMap_map_comp {α β γ : Type} (f : α → β) (g : β → List γ) (l : List α) :
    (l.map f).flatMap g = l.flatMap (fun a => g (f a)) := by
  induction l with
  | nil => rfl
  | cons a t ih => simp only [List.map_cons, List.flatMap_cons, ih]

/-- C1: for every total count `n ≥ 0` and batch size `B > 0`, the batch
descriptors (start offsets `range(0, n, B)`, counts
`min(start + B, n) - start`) number exactly `⌈n/B⌉`, their counts sum
exactly to `n`, and their offset ranges concatenate to exactly `[0, n)` —
contiguous, no gap, no overlap, the last batch truncated to the remainder. -/
theorem batch_partition_complete (n B : ℕ) (hB : 0 < B) :
    (batches n B).length = (n + B - 1) / B ∧
    ((batches n B).map Prod.snd).sum = n ∧
    ((batches n B).flatMap (fun p => List.range' p.1 p.2)) = List.range n := by
  unfold batches batchStarts actualBatchSize
  refine ⟨?_, ?_, ?_⟩
  · rw [List.length_map]
    have := pyRange_length n B 0 hB
    simpa using this
  · rw [List.map_map]
    have := pyRange_sum n B 0 hB
    simpa using this
  · rw [flatMap_map_comp, List.range_eq_range']
    have := pyRange_cover n B 0 hB
    simpa using this

/-- Witness for C1 at `n = 10`, `B = 3`. -/
theorem batch_partition_complete_witness :
    (0 < 3) ∧
    ((batches 10 3).length = (10 + 3 - 1) / 3 ∧
      ((batches 10 3).map Prod.snd).sum = 10 ∧
      ((batches 10 3).flatMap (fun p => List.range' p.1 p.2)) = List.range 10) :=
  ⟨by decide, batch_partition_complete 10 3 (by decide)⟩

/-! ## Theorems: customer generator (C8, C9) -/

theorem process_customer_batch_eq (batch_start batch_size n : ℕ) (f : ℕ → ℕ) :
    process_customer_batch batch_start batch_size n f =
      (List.range' batch_start (actualBatchSize batch_start batch_size n)).map
        (customerRow f) := by
  unfold process_customer_batch actualBatchSize
  rw [pyRange_one]

/-- Concatenated across a run's batches, the customer stage's rows are
exactly the rows for global indices `0, …, n-1`, in order. -/
theorem customers_rows_eq (n B : ℕ) (f : ℕ → ℕ) (hB : 0 < B) :
    (create_customers_bulk n B f).1 = (List.range n).map (customerRow f) := by
  simp only [create_customers_bulk, batchStarts, process_customer_batch_eq,
    actualBatchSize]
  rw [← List.map_flatMap, pyRange_cover n B 0 hB, Nat.sub_zero,
    List.range_eq_range']

/-- C8: requesting `n = 0` customers generates zero rows and submits zero
chunks to the bulk loader; the stage's embedding is a total function, so the
run completes with the empty result and raises nothing. -/
theorem zero_customers_noop (B : ℕ) (f : ℕ → ℕ) :
    create_customers_bulk 0 B f = ([], []) := by
  have h0 : pyRange 0 0 B = [] := pyRange_nil (by omega)
  simp [create_customers_bulk, batchStarts, loadChunks, h0]

/-- Witness for C8 at the scripts' default batch size. -/
theorem zero_customers_noop_witness :
    create_customers_bulk 0 10000 (fun _ => 1) = ([], []) :=
  zero_customers_noop 10000 (fun _ => 1)

theorem toDigitsCore_append (fuel n : ℕ) (ds : List Char) (h : n < fuel) :
    Nat.toDigitsCore 10 fuel n ds = Nat.toDigitsCore 10 (n + 1) n [] ++ ds := by
  induction fuel using Nat.strong_induction_on generalizing n ds with
  | _ fuel ih =>
    obtain ⟨k, rfl⟩ : ∃ k, fuel = k + 1 := ⟨fuel - 1, by omega⟩
    by_cases h0 : n / 10 = 0
    · simp [Nat.toDigitsCore, h0]
    · have hlt : n / 10 < n := Nat.div_lt_self (by omega) (by omega)
      simp only [Nat.toDigitsCore, h0, if_false]
      rw [ih k (by omega) (n / 10) _ (by omega),
        ih n (by omega) (n / 10) _ (by omega), List.append_assoc,
        List.singleton_append]

theorem toDigits_ten_lt (n : ℕ) (h : n < 10) :
    Nat.toDigits 10 n = [Nat.digitChar n] := by
  have h0 : n / 10 = 0 := Nat.div_eq_of_lt h
  simp [Nat.toDigits, Nat.toDigitsCore, h0, Nat.mod_eq_of_lt h]

theorem toDigits_ten_ge (n : ℕ) (h : 10 ≤ n) :
    Nat.toDigits 10 n = Nat.toDigits 10 (n / 10) ++ [Nat.digitChar (n % 10)] := by
  have h0 : n / 10 ≠ 0 := Nat.pos_iff_ne_zero.mp (Nat.div_pos h (by omega))
  unfold Nat.toDigits
  simp only [Nat.toDigitsCore, h0, if_false]
  exact toDigitsCore_append n (n / 10) _ (Nat.div_lt_self (by omega) (by omega))

theorem decValue_append (l : List Char) (c : Char) :
    decValue (l ++ [c]) = 10 * decValue l + charVal c := by
  unfold decValue
  rw [List.foldl_append]
  rfl

theorem charVal_digitChar (d : ℕ) (h : d < 10) :
    charVal (Nat.digitChar d) = d := by
  interval_cases d <;> rfl

theorem decValue_toDigits (n : ℕ) : decValue (Nat.toDigits 10 n) = n := by
  induction n using Nat.strong_induction_on with
  | _ n ih =>
    by_cases h : n < 10
    · rw [toDigits_ten_lt n h]
      simp [decValue, charVal_digitChar n h]
    · rw [toDigits_ten_ge n (by omega), decValue_append,
        ih (n / 10) (Nat.div_lt_self (by omega) (by omega)),
        charVal_digitChar _ (Nat.mod_lt n (by omega))]
      omega

theorem repr_injective {m n : ℕ} (h : Nat.repr m = Nat.repr n) : m = n := by
  have hd : Nat.toDigits 10 m = Nat.toDigits 10 n := congrArg String.data h
  calc m = decValue (Nat.toDigits 10 m) := (decValue_toDigits m).symm
    _ = decValue (Nat.toDigits 10 n) := by rw [hd]
    _ = n := decValue_toDigits n

theorem customerName_injective {i j : ℕ}
    (h : "customer_" ++ Nat.repr i = "customer_" ++ Nat.repr j) : i = j := by
  have hd := congrArg String.data h
  simp only [String.data_append] at hd
  exact repr_injective (String.ext (List.append_cancel_left hd))

theorem customerEmail_injective {i j : ℕ}
    (h : "customer_" ++ Nat.repr i ++ "@example.com" =
      "customer_" ++ Nat.repr j ++ "@example.com") : i = j := by
  have hd := congrArg String.data h
  simp only [String.data_append] at hd
  exact repr_injective
    (String.ext (List.append_cancel_left (List.append_cancel_right hd)))

/-- C9: the customer generator is deterministic in its identity fields —
across the whole run the row at global offset `i` is `customerRow f i`, whose
name is `customer_i` and email `customer_i@example.com`, depending only on
the sequence index (the status draw `f` touches neither) — and distinct
offsets give distinct names and distinct emails. -/
theorem customer_identity_deterministic_unique (n B : ℕ) (f : ℕ → ℕ)
    (hB : 0 < B) (i j : ℕ) (hne : i ≠ j) :
    (create_customers_bulk n B f).1 = (List.range n).map (customerRow f) ∧
    (customerRow f i).name = "customer_" ++ Nat.repr i ∧
    (customerRow f i).email = "customer_" ++ Nat.repr i ++ "@example.com" ∧
    (customerRow f i).name ≠ (customerRow f j).name ∧
    (customerRow f i).email ≠ (customerRow f j).email := by
  refine ⟨customers_rows_eq n B f hB, rfl, rfl, ?_, ?_⟩
  · exact fun h => hne (customerName_injective h)
  · exact fun h => hne (customerEmail_injective h)

/-- Witness for C9 at `n = 9`, `B = 4`, offsets 3 and 5. -/
theorem customer_identity_deterministic_unique_witness :
    ((0:ℕ) < 4 ∧ (3:ℕ) ≠ 5) ∧
    ((create_customers_bulk 9 4 (fun _ => 1)).1 =
        (List.range 9).map (customerRow (fun _ => 1)) ∧
      (customerRow (fun _ => 1) 3).name = "customer_" ++ Nat.repr 3 ∧
      (customerRow (fun _ => 1) 3).email =
        "customer_" ++ Nat.repr 3 ++ "@example.com" ∧
      (customerRow (fun _ => 1) 3).name ≠ (customerRow (fun _ => 1) 5).name ∧
      (customerRow (fun _ => 1) 3).email ≠ (customerRow (fun _ => 1) 5).email) :=
  ⟨⟨by decide, by decide⟩,
    customer_identity_deterministic_unique 9 4 (fun _ => 1) (by decide) 3 5
      (by decide)⟩

/-! ## Theorems: service generator (C10) -/

theorem roundMono {x y : ℚ} (h : x ≤ y) : round x ≤ round y := by
  rw [round_eq, round_eq]
  exact Int.floor_le_floor (by linarith)

/-- Rounding to two decimals keeps a value inside whole-number bounds. -/
theorem round2_bounds (a b : ℤ) (u : ℚ) (h1 : (a : ℚ) ≤ u) (h2 : u ≤ (b : ℚ)) :
    (a : ℚ) ≤ round2 u ∧ round2 u ≤ (b : ℚ) := by
  unfold round2
  constructor
  · have h3 : (a * 100 : ℤ) ≤ round (u * 100) := by
      calc (a * 100 : ℤ) = round ((a * 100 : ℤ) : ℚ) := (round_intCast _).symm
        _ ≤ round (u * 100) := roundMono (by push_cast; linarith)
    have h4 : ((a * 100 : ℤ) : ℚ) ≤ (round (u * 100) : ℚ) := by exact_mod_cast h3
    push_cast at h4
    linarith
  · have h3 : round (u * 100) ≤ (b * 100 : ℤ) := by
      calc round (u * 100) ≤ round ((b * 100 : ℤ) : ℚ) :=
          roundMono (by push_cast; linarith)
        _ = (b * 100 : ℤ) := round_intCast _
    have h4 : ((round (u * 100)) : ℚ) ≤ ((b * 100 : ℤ) : ℚ) := by exact_mod_cast h3
    push_cast at h4
    linarith

/-- Every price bucket of the service generator, whatever the name, lies
inside `[15, 120]`. -/
theorem servicePriceRange_bounds (nm : String) :
    15 ≤ (servicePriceRange nm).1 ∧ (servicePriceRange nm).2 ≤ 120 := by
  unfold servicePriceRange internetPriceRange mobilePriceRange tvPriceRange
  split_ifs <;> exact ⟨by norm_num, by norm_num⟩

theorem getD_of_lt {α : Type} (l : List α) (n : ℕ) (d : α) (h : n < l.length) :
    l.getD n d = l.get ⟨n, h⟩ := by
  simp [List.getD_eq_getElem?_getD, List.getElem?_eq_getElem h]

/-- C10: every generated service row has `base_price` inside `[15, 120]`
(each name-keyword bucket draws from its own `[lo, hi]` sub-range and rounds
to 2 decimals), hence strictly positive, and is recurring with a MONTHLY
(`= 1`) billing cycle — `billing_cycle` is never null while `is_recurring`
holds. -/
theorem service_rows_bounded_recurring (us : List ℚ) (k : ℕ)
    (hk1 : k < TELECOM_SERVICES.length) (hk2 : k < us.length)
    (hlo : ((servicePriceRange (TELECOM_SERVICES.getD k "")).1 : ℚ) ≤ us.getD k 0)
    (hhi : us.getD k 0 ≤ ((servicePriceRange (TELECOM_SERVICES.getD k "")).2 : ℚ)) :
    (create_custom_services_bulk us).getD k (serviceRow "" 0) =
      serviceRow (TELECOM_SERVICES.getD k "") (us.getD k 0) ∧
    15 ≤ (serviceRow (TELECOM_SERVICES.getD k "") (us.getD k 0)).base_price ∧
    (serviceRow (TELECOM_SERVICES.getD k "") (us.getD k 0)).base_price ≤ 120 ∧
    0 < (serviceRow (TELECOM_SERVICES.getD k "") (us.getD k 0)).base_price ∧
    (serviceRow (TELECOM_SERVICES.getD k "") (us.getD k 0)).is_recurring = true ∧
    (serviceRow (TELECOM_SERVICES.getD k "") (us.getD k 0)).billing_cycle = 1 := by
  have hklen : k < (create_custom_services_bulk us).length := by
    unfold create_custom_services_bulk
    rw [List.length_zipWith]
    omega
  obtain ⟨hb1, hb2⟩ := servicePriceRange_bounds (TELECOM_SERVICES.getD k "")
  obtain ⟨hr1, hr2⟩ := round2_bounds _ _ _ hlo hhi
  refine ⟨?_, ?_, ?_, ?_, rfl, rfl⟩
  · rw [getD_of_lt _ _ _ hklen, List.get_eq_getElem]
    unfold create_custom_services_bulk
    rw [List.getElem_zipWith, getD_of_lt _ _ _ hk1, getD_of_lt _ _ _ hk2,
      List.get_eq_getElem, List.get_eq_getElem]
  · have : ((15 : ℤ) : ℚ) ≤ ((servicePriceRange (TELECOM_SERVICES.getD k "")).1 : ℚ) :=
      Int.cast_le.mpr hb1
    show (15 : ℚ) ≤ round2 (us.getD k 0)
    push_cast at this
    linarith
  · have : (((servicePriceRange (TELECOM_SERVICES.getD k "")).2 : ℤ) : ℚ) ≤ ((120 : ℤ) : ℚ) :=
      Int.cast_le.mpr hb2
    show round2 (us.getD k 0) ≤ (120 : ℚ)
    push_cast at this
    linarith
  · have : ((15 : ℤ) : ℚ) ≤ ((servicePriceRange (TELECOM_SERVICES.getD k "")).1 : ℚ) :=
      Int.cast_le.mpr hb1
    show (0 : ℚ) < round2 (us.getD k 0)
    push_cast at this
    linarith

/-- Witness for C10 at catalog entry 0 (Fiber Optic 100Mbps, bucket
`[25, 45]`, draw 25). -/
theorem service_rows_bounded_recurring_witness :
    ((0 : ℕ) < TELECOM_SERVICES.length ∧ (0 : ℕ) < servicesDrawsW.length ∧
      ((servicePriceRange (TELECOM_SERVICES.getD 0 "")).1 : ℚ) ≤
        servicesDrawsW.getD 0 0 ∧
      servicesDrawsW.getD 0 0 ≤
        ((servicePriceRange (TELECOM_SERVICES.getD 0 "")).2 : ℚ)) ∧
    ((create_custom_services_bulk servicesDrawsW).getD 0 (serviceRow "" 0) =
        serviceRow (TELECOM_SERVICES.getD 0 "") (servicesDrawsW.getD 0 0) ∧
      15 ≤ (serviceRow (TELECOM_SERVICES.getD 0 "") (servicesDrawsW.getD 0 0)).base_price ∧
      (serviceRow (TELECOM_SERVICES.getD 0 "") (servicesDrawsW.getD 0 0)).base_price ≤ 120 ∧
      0 < (serviceRow (TELECOM_SERVICES.getD 0 "") (servicesDrawsW.getD 0 0)).base_price ∧
      (serviceRow (TELECOM_SERVICES.getD 0 "") (servicesDrawsW.getD 0 0)).is_recurring = true ∧
      (serviceRow (TELECOM_SERVICES.getD 0 "") (servicesDrawsW.getD 0 0)).billing_cycle = 1) :=
  ⟨⟨by decide, by decide, by decide, by decide⟩,
    service_rows_bounded_recurring servicesDrawsW 0 (by decide) (by decide)
      (by decide) (by decide)⟩

/-! ## Theorems: purchase generator (C3) -/

theorem process_purchase_batch_getD (bs B n : ℕ) (cids sids : List ℕ)
    (rec : List Bool) (o : PurchaseOracle) (k : ℕ)
    (hk : k < (process_purchase_batch bs B n cids sids rec o).length) :
    (process_purchase_batch bs B n cids sids rec o).getD k dfltPurchase =
      { customer_id := cids.getD (o.customerIdx k) 0
        service_id := sids.getD (o.serviceIdx k) 0
        start_date := o.now - (o.dayOffset k : ℤ) * 86400
        end_date :=
          if rec.getD (o.serviceIdx k) false then
            some (o.now - (o.dayOffset k : ℤ) * 86400 + 30 * 86400)
          else none
        status := o.statusVal k } := by
  rw [getD_of_lt _ _ _ hk, List.get_eq_getElem]
  simp only [process_purchase_batch, List.getElem_map, List.getElem_range]

/-- C3: for every generated purchase row, `end_date` is non-null exactly when
the selected service's `is_recurring` flag holds, and a non-null `end_date`
is exactly `start_date + 30 days`, hence never earlier than `start_date`. -/
theorem purchase_end_date_iff_recurring (bs B n : ℕ) (cids sids : List ℕ)
    (rec : List Bool) (o : PurchaseOracle) (k : ℕ)
    (hk : k < (process_purchase_batch bs B n cids sids rec o).length) :
    ((process_purchase_batch bs B n cids sids rec o).getD k
        dfltPurchase).end_date.isSome = rec.getD (o.serviceIdx k) false ∧
    ∀ e, ((process_purchase_batch bs B n cids sids rec o).getD k
        dfltPurchase).end_date = some e →
      e = ((process_purchase_batch bs B n cids sids rec o).getD k
        dfltPurchase).start_date + 30 * 86400 ∧
      ((process_purchase_batch bs B n cids sids rec o).getD k
        dfltPurchase).start_date ≤ e := by
  rw [process_purchase_batch_getD bs B n cids sids rec o k hk]
  by_cases hrec : rec.getD (o.serviceIdx k) false
  · simp only [hrec, if_true]
    refine ⟨rfl, ?_⟩
    intro e he
    have he2 : o.now - (o.dayOffset k : ℤ) * 86400 + 30 * 86400 = e := by
      simpa using he
    constructor
    · omega
    · omega
  · simp only [Bool.not_eq_true] at hrec
    simp only [List.getD_eq_getElem?_getD] at hrec
    simp [hrec]

/-- Witness for C3: a two-row batch over one recurring and one
non-recurring service, row 0 selecting the recurring one. -/
theorem purchase_end_date_iff_recurring_witness :
    (0 < (process_purchase_batch 0 2 2 [11, 12] [5, 6] [true, false]
      purchaseOracleW).length) ∧
    (((process_purchase_batch 0 2 2 [11, 12] [5, 6] [true, false]
        purchaseOracleW).getD 0 dfltPurchase).end_date.isSome =
      [true, false].getD (purchaseOracleW.serviceIdx 0) false ∧
    ∀ e, ((process_purchase_batch 0 2 2 [11, 12] [5, 6] [true, false]
        purchaseOracleW).getD 0 dfltPurchase).end_date = some e →
      e = ((process_purchase_batch 0 2 2 [11, 12] [5, 6] [true, false]
        purchaseOracleW).getD 0 dfltPurchase).start_date + 30 * 86400 ∧
      ((process_purchase_batch 0 2 2 [11, 12] [5, 6] [true, false]
        purchaseOracleW).getD 0 dfltPurchase).start_date ≤ e) :=
  ⟨by decide, purchase_end_date_iff_recurring 0 2 2 [11, 12] [5, 6]
    [true, false] purchaseOracleW 0 (by decide)⟩

/-! ## Theorems: payment generator (C2, C4) -/

theorem process_payment_batch_getD (bs B n : ℕ) (pids pcids : List ℕ)
    (prices : List ℚ) (cids : List ℕ) (o : PaymentOracle) (k : ℕ)
    (hk : k < (process_payment_batch bs B n pids pcids prices cids o).length) :
    (process_payment_batch bs B n pids pcids prices cids o).getD k dfltPayment =
      { customer_id :=
          if o.sameCustomer k then pcids.getD (o.purchaseIdx k) 0
          else cids.getD (o.otherIdx k) 0
        purchase_id := pids.getD (o.purchaseIdx k) 0
        amount := prices.getD (o.purchaseIdx k) 0
        currency := o.currencyVal k
        payment_method := o.methodVal k
        status := o.statusVal k
        timestamp := o.now - (o.dayOffset k : ℤ) * 86400 } := by
  rw [getD_of_lt _ _ _ hk, List.get_eq_getElem]
  simp only [process_payment_batch, List.getElem_map, List.getElem_range]

/-- C2: every generated payment row's `amount` is exactly the base price the
purchase-to-service join projection holds at the row's selected purchase
index — so in particular within the 0.01 floating-point tolerance — for all
selected purchase indices and all batches. -/
theorem payment_amount_matches_service_price (bs B n : ℕ) (pids pcids : List ℕ)
    (prices : List ℚ) (cids : List ℕ) (o : PaymentOracle) (k : ℕ)
    (hk : k < (process_payment_batch bs B n pids pcids prices cids o).length) :
    ((process_payment_batch bs B n pids pcids prices cids o).getD k
        dfltPayment).amount = prices.getD (o.purchaseIdx k) 0 ∧
    |((process_payment_batch bs B n pids pcids prices cids o).getD k
        dfltPayment).amount - prices.getD (o.purchaseIdx k) 0| < 1 / 100 := by
  rw [process_payment_batch_getD bs B n pids pcids prices cids o k hk]
  refine ⟨rfl, ?_⟩
  simp only [sub_self, abs_zero]
  norm_num

/-- Witness for C2: a two-row batch over two priced purchases. -/
theorem payment_amount_matches_service_price_witness :
    (1 < (process_payment_batch 0 2 2 [21, 22] [7, 8] [30, 45] [7, 8, 9]
      paymentOracleW).length) ∧
    (((process_payment_batch 0 2 2 [21, 22] [7, 8] [30, 45] [7, 8, 9]
        paymentOracleW).getD 1 dfltPayment).amount =
      [(30 : ℚ), 45].getD (paymentOracleW.purchaseIdx 1) 0 ∧
    |((process_payment_batch 0 2 2 [21, 22] [7, 8] [30, 45] [7, 8, 9]
        paymentOracleW).getD 1 dfltPayment).amount -
      [(30 : ℚ), 45].getD (paymentOracleW.purchaseIdx 1) 0| < 1 / 100) :=
  ⟨by decide, payment_amount_matches_service_price 0 2 2 [21, 22] [7, 8]
    [30, 45] [7, 8, 9] paymentOracleW 1 (by decide)⟩

/-- C4, evaluated at the failing input: customers `[7, 8]`, one purchase
whose own customer is 7; the mask draw takes the 5% different-customer
branch (`sameCustomer 0 = false`), yet `random.choice` over the whole
customer list lands on 7, so the payment's customer EQUALS the purchase's
customer — the branch does not guarantee a distinct customer. -/
theorem payment_other_branch_hits_own_customer :
    ((process_payment_batch 0 1 1 [10] [7] [25] [7, 8] paymentOracleBug).map
        PaymentRow.customer_id = [7]) ∧
    [7].getD (paymentOracleBug.purchaseIdx 0) 0 = 7 ∧
    paymentOracleBug.sameCustomer 0 = false := by
  refine ⟨?_, rfl, rfl⟩
  decide

/-! ## Theorems: empty-reference fail-fast (C5) -/

/-- C5: when the fetched reference sets a dependent stage needs are empty,
both the purchase stage and the payment stage return the raised
`ValueError` the specification classifies as `MissingReferenceDataError`,
producing no rows and submitting no load chunks (the `Except.error` result
carries neither), before any batch is dispatched to a worker. -/
theorem empty_reference_fails_fast (nP BP nY BY : ℕ)
    (cidsP sidsP : List ℕ) (recP : List Bool) (oP : ℕ → PurchaseOracle)
    (cidsY pidsY pcidsY : List ℕ) (pricesY : List ℚ) (oY : ℕ → PaymentOracle)
    (h1 : cidsP = [] ∨ sidsP = []) (h2 : cidsY = [] ∨ pidsY = []) :
    create_purchases_bulk nP BP cidsP sidsP recP oP =
      .error (.valueError purchaseMissingRefsMsg) ∧
    isMissingReferenceDataError (.valueError purchaseMissingRefsMsg) = true ∧
    create_payments_bulk nY BY pidsY pcidsY pricesY cidsY oY =
      .error (.valueError paymentMissingRefsMsg) ∧
    isMissingReferenceDataError (.valueError paymentMissingRefsMsg) = true := by
  refine ⟨?_, by decide, ?_, by decide⟩
  · unfold create_purchases_bulk
    rw [if_pos h1]
  · unfold create_payments_bulk
    rw [if_pos h2]

/-- Witness for C5: no customers for the purchase stage, no purchases for
the payment stage. -/
theorem empty_reference_fails_fast_witness :
    (([] : List ℕ) = [] ∨ ([3] : List ℕ) = []) ∧
    (([5] : List ℕ) = [] ∨ ([] : List ℕ) = []) ∧
    (create_purchases_bulk 100 10 [] [3] [true] (fun _ => purchaseOracleW) =
        .error (.valueError purchaseMissingRefsMsg) ∧
      isMissingReferenceDataError (.valueError purchaseMissingRefsMsg) = true ∧
      create_payments_bulk 100 10 [] [] [] [5] (fun _ => paymentOracleW) =
        .error (.valueError paymentMissingRefsMsg) ∧
      isMissingReferenceDataError (.valueError paymentMissingRefsMsg) = true) :=
  ⟨Or.inl rfl, Or.inr rfl,
    empty_reference_fails_fast 100 10 100 10 [] [3] [true]
      (fun _ => purchaseOracleW) [5] [] [] [] (fun _ => paymentOracleW)
      (Or.inl rfl) (Or.inr rfl)⟩

/-! ## Theorems: weighted sampler (C6) -/

theorem sum_map_div (l : List ℚ) (s : ℚ) :
    (l.map (fun w => w / s)).sum = l.sum / s := by
  induction l with
  | nil => simp
  | cons a t ih => simp [ih, add_div]

/-- C6: with non-negative weights, the sampler fails with a
`ConfigurationError` whenever the value and weight lists differ in length or
every weight is zero; on well-formed input (equal lengths, some positive
weight) it succeeds with the weight vector normalized once at setup, whose
entries are `weight_i / Σ weights` — the sampling distribution — and whose
sum is 1. -/
theorem weighted_sampler_contract (values : List ℕ) (weights : List ℚ)
    (hpos : ∀ w ∈ weights, 0 ≤ w) :
    (values.length ≠ weights.length →
      ∃ e, weightedSamplerSetup values weights = .error e ∧
        isConfigurationError e = true) ∧
    ((∀ w ∈ weights, w = 0) →
      ∃ e, weightedSamplerSetup values weights = .error e ∧
        isConfigurationError e = true) ∧
    (values.length = weights.length → (∃ w ∈ weights, 0 < w) →
      weightedSamplerSetup values weights = .ok (normalizeWeights weights) ∧
      (normalizeWeights weights).sum = 1 ∧
      ∀ k, k < weights.length →
        (normalizeWeights weights).getD k 0 =
          weights.getD k 0 / weights.sum) := by
  refine ⟨?_, ?_, ?_⟩
  · intro hne
    unfold weightedSamplerSetup
    by_cases hs : weights.sum = 0
    · exact ⟨_, by rw [if_pos hs], by decide⟩
    · exact ⟨_, by rw [if_neg hs, if_pos hne], by decide⟩
  · intro hz
    have hs : weights.sum = 0 := List.sum_eq_zero hz
    exact ⟨_, by unfold weightedSamplerSetup; rw [if_pos hs], by decide⟩
  · intro hlen hex
    have hs : weights.sum ≠ 0 := by
      obtain ⟨w, hw, hw0⟩ := hex
      exact ne_of_gt (lt_of_lt_of_le hw0 (List.single_le_sum hpos w hw))
    refine ⟨?_, ?_, ?_⟩
    · unfold weightedSamplerSetup
      rw [if_neg hs, if_neg (fun hc => hc hlen)]
    · unfold normalizeWeights
      rw [sum_map_div, div_self hs]
    · intro k hk
      have hk2 : k < (normalizeWeights weights).length := by
        simpa [normalizeWeights] using hk
      rw [getD_of_lt _ _ _ hk2, getD_of_lt _ _ _ hk, List.get_eq_getElem,
        List.get_eq_getElem]
      simp [normalizeWeights]

/-- Witness for C6 over values `[1, 2, 3]` and weights `[2, 0, 3]`. -/
theorem weighted_sampler_contract_witness :
    (∀ w ∈ ([2, 0, 3] : List ℚ), 0 ≤ w) ∧
    ((([1, 2, 3] : List ℕ).length ≠ ([2, 0, 3] : List ℚ).length →
      ∃ e, weightedSamplerSetup [1, 2, 3] [2, 0, 3] = .error e ∧
        isConfigurationError e = true) ∧
    ((∀ w ∈ ([2, 0, 3] : List ℚ), w = 0) →
      ∃ e, weightedSamplerSetup [1, 2, 3] [2, 0, 3] = .error e ∧
        isConfigurationError e = true) ∧
    (([1, 2, 3] : List ℕ).length = ([2, 0, 3] : List ℚ).length →
      (∃ w ∈ ([2, 0, 3] : List ℚ), 0 < w) →
      weightedSamplerSetup [1, 2, 3] [2, 0, 3] =
        .ok (normalizeWeights [2, 0, 3]) ∧
      (normalizeWeights [2, 0, 3]).sum = 1 ∧
      ∀ k, k < ([2, 0, 3] : List ℚ).length →
        (normalizeWeights [2, 0, 3]).getD k 0 =
          ([2, 0, 3] : List ℚ).getD k 0 / ([2, 0, 3] : List ℚ).sum)) :=
  ⟨by decide, weighted_sampler_contract [1, 2, 3] [2, 0, 3] (by decide)⟩

/-! ## Theorems: COPY serializer (C7) -/

theorem copyBuffer_eq (batch : List PgRow) :
    copyBuffer batch = String.join (batch.map rowLine) := by
  unfold copyBuffer String.join
  rw [List.foldl_map]

/-- C7: on a non-empty batch the serializer issues one COPY with the buffer
holding one line per row, in batch order, each line the tab-join of the
row's rendered fields terminated by a newline; `None` renders as the null
sentinel `\N`, `datetime` as its ISO-8601 text, everything else as its plain
string form; and the positional column list is the first row's key order. -/
theorem copy_serializer_layout (batch : List PgRow) (h : batch ≠ []) :
    insert_batch_copy batch =
      some (String.join (batch.map rowLine), (batch.headD []).map Prod.fst) ∧
    (∀ row : PgRow, rowLine row =
      String.intercalate "\t" (row.map (fun kv => renderValue kv.2)) ++ "\n") ∧
    renderValue PgValue.null = "\\N" ∧
    (∀ d, renderValue (PgValue.dt d) = d.isoformat) ∧
    (∀ s, renderValue (PgValue.plain s) = s) := by
  obtain ⟨first, rest, rfl⟩ := List.exists_cons_of_ne_nil h
  refine ⟨?_, fun _ => rfl, rfl, fun _ => rfl, fun _ => rfl⟩
  unfold insert_batch_copy
  rw [copyBuffer_eq]
  rfl

/-- Witness for C7 on `sampleBatch`. -/
theorem copy_serializer_layout_witness :
    (sampleBatch ≠ []) ∧
    (insert_batch_copy sampleBatch =
      some (String.join (sampleBatch.map rowLine),
        (sampleBatch.headD []).map Prod.fst) ∧
    (∀ row : PgRow, rowLine row =
      String.intercalate "\t" (row.map (fun kv => renderValue kv.2)) ++ "\n") ∧
    renderValue PgValue.null = "\\N" ∧
    (∀ d, renderValue (PgValue.dt d) = d.isoformat) ∧
    (∀ s, renderValue (PgValue.plain s) = s)) :=
  ⟨by decide, copy_serializer_layout sampleBatch (by decide)⟩

end PaymentsDashboard
